import Mathlib

/-!
Verification of the VibeCommerce backend (Express + Mongoose server) cart
logic. The definitions below are a shallow embedding of the route handlers
in the backend source: the catalog (Product collection), the cart
(CartItem collection), database seeding, and the handlers for
GET /api/cart, POST /api/cart, DELETE /api/cart/:id and POST /api/checkout.
JavaScript numbers are modelled as rationals; `total.toFixed(2)` followed by
`parseFloat` is modelled as rounding to two decimal places.
-/

deriving instance DecidableEq for Except

namespace VibeCommerce

/-- A document of the Product collection (`productSchema`): name, price,
image, plus the Mongo `_id`, modelled as a natural number. -/
structure Product where
  id : Nat
  name : String
  price : ℚ
  image : String
  deriving DecidableEq

/-- A document of the CartItem collection (`cartItemSchema`): a reference to
a product by id and a quantity (a JS number, so a rational here). -/
structure CartItem where
  id : Nat
  product : Nat
  quantity : ℚ
  deriving DecidableEq

/-- The database state: the two collections, plus a counter supplying fresh
`_id`s for newly created cart items. -/
structure DB where
  products : List Product
  cartItems : List CartItem
  nextId : Nat
  deriving DecidableEq

/-- Error responses of the handlers: 400 (invalid input), 404 (not found),
500 (database/server error). -/
inductive ApiError where
  | ValidationError
  | NotFoundError
  | StoreError
  deriving DecidableEq

/-- `Product.findById(productId)`. -/
def findProduct (db : DB) (pid : Nat) : Option Product :=
  db.products.find? (fun p => p.id == pid)

/-- A cart item after `.populate('product')`: the product reference replaced
by the product document, or `none` when the reference does not resolve. -/
structure PopulatedItem where
  id : Nat
  product : Option Product
  quantity : ℚ
  deriving DecidableEq

/-- `.populate('product')` on one cart item. -/
def populate (db : DB) (it : CartItem) : PopulatedItem :=
  { id := it.id, product := findProduct db it.product, quantity := it.quantity }

/-- `parseFloat(x.toFixed(2))`: round to two decimal places. -/
def round2 (x : ℚ) : ℚ := (round (x * 100) : ℤ) / 100

/-- The reducer of the GET /api/cart handler: add `price * quantity` when
the populated product is present, else leave the accumulator unchanged. -/
def cartTotalAcc (acc : ℚ) (item : PopulatedItem) : ℚ :=
  match item.product with
  | some p => acc + p.price * item.quantity
  | none => acc

/-- The JSON body returned by GET /api/cart. -/
structure CartResponse where
  cartItems : List PopulatedItem
  total : ℚ
  deriving DecidableEq

/-- The GET /api/cart handler: populate every cart item, reduce to the
total, respond with the items and the rounded total. -/
def getCart (db : DB) : CartResponse :=
  let items := db.cartItems.map (populate db)
  let total := items.foldl cartTotalAcc 0
  { cartItems := items, total := round2 total }

/-- The POST /api/cart handler. The request body fields are optional (a
missing field is `none`). Validation: missing productId, missing/zero
quantity, or quantity < 1 is a 400. Then `findOne({product: productId})`:
if a cart item for the product exists its quantity is overwritten and it is
saved; otherwise the product is looked up (404 when absent) and a new cart
item is created. The response is the freshly populated item. -/
def addOrSetQuantity (db : DB) (productId : Option Nat) (quantity : Option ℚ) :
    Except ApiError (DB × PopulatedItem) :=
  match productId, quantity with
  | none, _ => .error .ValidationError
  | some _, none => .error .ValidationError
  | some pid, some q =>
    if q < 1 then .error .ValidationError
    else
      match db.cartItems.find? (fun it => it.product == pid) with
      | some cartItem =>
        let updated : CartItem := { cartItem with quantity := q }
        let db2 : DB := { db with
          cartItems := db.cartItems.map
            (fun it => if it.id == cartItem.id then updated else it) }
        .ok (db2, populate db2 updated)
      | none =>
        match findProduct db pid with
        | none => .error .NotFoundError
        | some _ =>
          let newItem : CartItem := { id := db.nextId, product := pid, quantity := q }
          let db2 : DB := { db with
            cartItems := db.cartItems ++ [newItem], nextId := db.nextId + 1 }
          .ok (db2, populate db2 newItem)

/-- The DELETE /api/cart/:id handler: `findByIdAndDelete(id)`. When no cart
item has the id, a 404 is returned and the state is unchanged; otherwise the
item is removed and returned. -/
def removeItem (db : DB) (id : Nat) : Except ApiError CartItem × DB :=
  match db.cartItems.find? (fun it => it.id == id) with
  | none => (.error .NotFoundError, db)
  | some it =>
    (.ok it, { db with cartItems := db.cartItems.eraseP (fun x => x.id == id) })

/-- One line of the receipt's `order.items`: name, quantity, unit price,
with the placeholders used when the product did not resolve. -/
structure OrderLine where
  name : String
  quantity : ℚ
  price : ℚ
  deriving DecidableEq

/-- The `order` object of the checkout response (the fabricated orderId and
timestamp carry no cart information and are not modelled). -/
structure Receipt where
  success : Bool
  items : List OrderLine
  total : ℚ
  deriving DecidableEq

/-- `item => (name, quantity, price)` of the checkout handler, with
`'Unknown Item'` and price 0 when the product did not resolve. -/
def toOrderLine (item : PopulatedItem) : OrderLine :=
  { name := match item.product with | some p => p.name | none => "Unknown Item"
    quantity := item.quantity
    price := match item.product with | some p => p.price | none => 0 }

/-- The read-and-total phase of POST /api/checkout: populate the cart,
reduce to the total, build the receipt. -/
def computeReceipt (db : DB) : Receipt :=
  let cartItems := db.cartItems.map (populate db)
  let total := cartItems.foldl cartTotalAcc 0
  { success := true, items := cartItems.map toOrderLine, total := round2 total }

/-- POST /api/checkout on the success path: the receipt is computed from
the pre-checkout cart and `CartItem.deleteMany({})` empties the cart. -/
def checkout (db : DB) : DB × Receipt :=
  ({ db with cartItems := [] }, computeReceipt db)

/-- The full POST /api/checkout handler with its try/catch: the whole body
(read, total, `deleteMany`, response) is inside one `try`; `clearFails`
says whether `CartItem.deleteMany({})` rejects. When it does, control jumps
to the `catch` block, which responds 500. -/
def checkoutHandler (db : DB) (clearFails : Bool) : Except ApiError (DB × Receipt) :=
  let receipt := computeReceipt db
  if clearFails then .error .StoreError
  else .ok ({ db with cartItems := [] }, receipt)

/-- `MOCK_PRODUCTS` from the backend source, with ids assigned at insert. -/
def MOCK_PRODUCTS : List Product :=
  [ { id := 1, name := "Classic Vibe Tee", price := 25,
      image := "https://placehold.co/400x400/2D3748/E2E8F0?text=Vibe+Tee" },
    { id := 2, name := "Retro Vibe Hoodie", price := 55,
      image := "https://placehold.co/400x400/4A5568/E2E8F0?text=Vibe+Hoodie" },
    { id := 3, name := "Vibe Snapback Cap", price := 37 / 2,
      image := "https://placehold.co/400x400/718096/E2E8F0?text=Vibe+Cap" },
    { id := 4, name := "Aesthetic Vibe Mug", price := 1299 / 100,
      image := "https://placehold.co/400x400/2D3748/E2E8F0?text=Vibe+Mug" },
    { id := 5, name := "Vibe-On-The-Go Tumbler", price := 22,
      image := "https://placehold.co/400x400/4A5568/E2E8F0?text=Vibe+Tumbler" },
    { id := 6, name := "Minimalist Vibe Print", price := 30,
      image := "https://placehold.co/400x400/718096/E2E8F0?text=Vibe+Print" } ]

/-- `seedDatabase`: count the products; when the collection is empty insert
`MOCK_PRODUCTS`, otherwise skip the seed. -/
def seedDatabase (products : List Product) : List Product :=
  if products.length == 0 then MOCK_PRODUCTS else products

/-- Well-formedness of a database state, maintained by MongoDB itself and
by the seed: `_id`s are unique in each collection and below the fresh-id
counter, and (the upsert invariant) at most one cart item per product. -/
def DB.wf (db : DB) : Prop :=
  (db.products.map Product.id).Nodup ∧
  (db.cartItems.map CartItem.id).Nodup ∧
  (db.cartItems.map CartItem.product).Nodup ∧
  ∀ it ∈ db.cartItems, it.id < db.nextId

instance (db : DB) : Decidable db.wf := by
  unfold DB.wf
  infer_instance

/-- The summand the specification describes for one populated line:
price × quantity when the product resolves, 0 otherwise. -/
def lineContribution (item : PopulatedItem) : ℚ :=
  match item.product with
  | some p => p.price * item.quantity
  | none => 0

lemma cartTotalAcc_eq (a : ℚ) (item : PopulatedItem) :
    cartTotalAcc a item = a + lineContribution item := by
  cases h : item.product <;> simp [cartTotalAcc, lineContribution, h]

lemma foldl_cartTotalAcc (l : List PopulatedItem) (a : ℚ) :
    l.foldl cartTotalAcc a = a + (l.map lineContribution).sum := by
  induction l generalizing a with
  | nil => simp
  | cons x xs ih => simp [cartTotalAcc_eq, ih, add_assoc]

/-- C1: for every cart state, the total returned by GET /api/cart is the
sum of price × quantity over the line items whose product resolves, rounded
to two decimal places; items whose product does not resolve contribute 0 to
the total but still appear in the returned items sequence. -/
theorem C1_getCart_total (db : DB) :
    (getCart db).total = round2 (((getCart db).cartItems.map lineContribution).sum) ∧
    (getCart db).cartItems.length = db.cartItems.length ∧
    (∀ it ∈ db.cartItems, populate db it ∈ (getCart db).cartItems) ∧
    ∀ item ∈ (getCart db).cartItems, item.product = none → lineContribution item = 0 := by
  refine ⟨?_, ?_, ?_, ?_⟩
  · show round2 ((db.cartItems.map (populate db)).foldl cartTotalAcc 0) = _
    rw [foldl_cartTotalAcc]
    simp [getCart]
  · simp [getCart]
  · intro it hit
    simp only [getCart]
    exact List.mem_map_of_mem (populate db) hit
  · intro item _ hnone
    simp [lineContribution, hnone]

/-- Witness for C1 on a concrete state holding one resolvable item
(price 25, quantity 2) and one dangling item (product 99 absent). -/
theorem C1_getCart_total_witness :
    (getCart (DB.mk [⟨1, "A", 25, "img"⟩] [⟨0, 1, 2⟩, ⟨7, 99, 3⟩] 8)).total =
      round2 (((getCart (DB.mk [⟨1, "A", 25, "img"⟩] [⟨0, 1, 2⟩, ⟨7, 99, 3⟩] 8)).cartItems.map
        lineContribution).sum) ∧
    populate (DB.mk [⟨1, "A", 25, "img"⟩] [⟨0, 1, 2⟩, ⟨7, 99, 3⟩] 8) ⟨7, 99, 3⟩ ∈
      (getCart (DB.mk [⟨1, "A", 25, "img"⟩] [⟨0, 1, 2⟩, ⟨7, 99, 3⟩] 8)).cartItems :=
  ⟨(C1_getCart_total (DB.mk [⟨1, "A", 25, "img"⟩] [⟨0, 1, 2⟩, ⟨7, 99, 3⟩] 8)).1,
   (C1_getCart_total (DB.mk [⟨1, "A", 25, "img"⟩] [⟨0, 1, 2⟩, ⟨7, 99, 3⟩] 8)).2.2.1
     ⟨7, 99, 3⟩ (by decide)⟩

lemma find?_cart_spec {db : DB} {pid : Nat} {ci : CartItem}
    (h : db.cartItems.find? (fun it => it.product == pid) = some ci) :
    ci ∈ db.cartItems ∧ ci.product = pid :=
  ⟨List.mem_of_find?_eq_some h, by simpa using List.find?_some h⟩

/-- C2: for every well-formed state, resolvable productId and quantity ≥ 1,
POST /api/cart succeeds and afterwards the (unique) line item for that
product carries exactly the supplied quantity — the quantity is
overwritten, never accumulated, whatever it was before. -/
theorem C2_quantity_overwrite (db : DB) (pid : Nat) (p : Product) (q : ℚ)
    (hwf : db.wf) (hp : findProduct db pid = some p) (hq : 1 ≤ q) :
    ∃ db2 item, addOrSetQuantity db (some pid) (some q) = .ok (db2, item) ∧
      (∀ it ∈ db2.cartItems, it.product = pid → it.quantity = q) ∧
      (∃ it ∈ db2.cartItems, it.product = pid ∧ it.quantity = q) ∧
      (getCart db2).cartItems = db2.cartItems.map (populate db2) := by
  have hq1 : ¬ q < 1 := not_lt.mpr hq
  obtain ⟨hpid, hcid, hcprod, hbound⟩ := hwf
  cases hfind : db.cartItems.find? (fun it => it.product == pid) with
  | some ci =>
    obtain ⟨hmem, hciprod⟩ := find?_cart_spec hfind
    refine ⟨_, _, by simp only [addOrSetQuantity, if_neg hq1, hfind]; rfl, ?_, ?_, rfl⟩
    · intro it hit hprod
      rcases List.mem_map.mp hit with ⟨x, hx, rfl⟩
      by_cases hid : x.id == ci.id
      · simp [hid]
      · exfalso
        rw [if_neg hid] at hprod
        have hx_eq : x = ci :=
          List.inj_on_of_nodup_map hcprod hx hmem (by rw [hprod, hciprod])
        subst hx_eq
        simp at hid
    · refine ⟨{ ci with quantity := q }, ?_, hciprod, rfl⟩
      have := List.mem_map_of_mem
        (fun it => if it.id == ci.id then { ci with quantity := q } else it) hmem
      simpa using this
  | none =>
    refine ⟨_, _, by simp only [addOrSetQuantity, if_neg hq1, hfind, hp]; rfl, ?_, ?_, rfl⟩
    · intro it hit hprod
      rcases List.mem_append.mp hit with h | h
      · exfalso
        have := List.find?_eq_none.mp hfind it h
        simp [hprod] at this
      · rw [List.mem_singleton.mp h]
    · exact ⟨{ id := db.nextId, product := pid, quantity := q }, by simp, rfl, rfl⟩

/-- Witness for C2: a state already holding the product with quantity 5;
setting quantity 2 overwrites (the result is 2, not 7). -/
theorem C2_quantity_overwrite_witness :
    ∃ db2 item,
      addOrSetQuantity (DB.mk [⟨1, "A", 25, "img"⟩] [⟨0, 1, 5⟩] 1) (some 1) (some 2) =
        .ok (db2, item) ∧
      (∀ it ∈ db2.cartItems, it.product = 1 → it.quantity = 2) ∧
      (∃ it ∈ db2.cartItems, it.product = 1 ∧ it.quantity = 2) ∧
      (getCart db2).cartItems = db2.cartItems.map (populate db2) :=
  C2_quantity_overwrite (DB.mk [⟨1, "A", 25, "img"⟩] [⟨0, 1, 5⟩] 1) 1
    ⟨1, "A", 25, "img"⟩ 2 (by decide) (by decide) (by norm_num)

/-- C10: POST /api/cart performs no integrality check: any rational
quantity ≥ 1 (for instance 3/2) is accepted and stored exactly as supplied. -/
theorem C10_no_integrality_check (db : DB) (pid : Nat) (p : Product) (q : ℚ)
    (hp : findProduct db pid = some p) (hq : 1 ≤ q) :
    ∃ db2 item, addOrSetQuantity db (some pid) (some q) = .ok (db2, item) ∧
      item.quantity = q ∧ ∃ ci ∈ db2.cartItems, ci.product = pid ∧ ci.quantity = q := by
  have hq1 : ¬ q < 1 := not_lt.mpr hq
  cases hfind : db.cartItems.find? (fun it => it.product == pid) with
  | some ci =>
    obtain ⟨hmem, hciprod⟩ := find?_cart_spec hfind
    refine ⟨_, _, by simp only [addOrSetQuantity, if_neg hq1, hfind]; rfl, rfl, ?_⟩
    refine ⟨{ ci with quantity := q }, ?_, hciprod, rfl⟩
    have := List.mem_map_of_mem
      (fun it => if it.id == ci.id then { ci with quantity := q } else it) hmem
    simpa using this
  | none =>
    refine ⟨_, _, by simp only [addOrSetQuantity, if_neg hq1, hfind, hp]; rfl, rfl, ?_⟩
    exact ⟨{ id := db.nextId, product := pid, quantity := q }, by simp, rfl, rfl⟩

/-- Witness for C10 at the fractional quantity 3/2. -/
theorem C10_no_integrality_check_witness :
    ∃ db2 item,
      addOrSetQuantity (DB.mk [⟨1, "A", 25, "img"⟩] [] 0) (some 1) (some (3 / 2)) =
        .ok (db2, item) ∧
      item.quantity = 3 / 2 ∧
      ∃ ci ∈ db2.cartItems, ci.product = 1 ∧ ci.quantity = 3 / 2 :=
  C10_no_integrality_check (DB.mk [⟨1, "A", 25, "img"⟩] [] 0) 1
    ⟨1, "A", 25, "img"⟩ (3 / 2) (by decide) (by norm_num)

/-- C5 counterexample: a state whose cart already holds a line item for
product 99 while the catalog does not resolve 99. The claim says every
call with an unresolvable productId fails with NotFoundError; this call
succeeds (the update branch skips the catalog lookup). -/
theorem C5_counterexample :
    findProduct (DB.mk [] [⟨0, 99, 1⟩] 1) 99 = none ∧
    addOrSetQuantity (DB.mk [] [⟨0, 99, 1⟩] 1) (some 99) (some 2) ≠
      Except.error ApiError.NotFoundError ∧
    addOrSetQuantity (DB.mk [] [⟨0, 99, 1⟩] 1) (some 99) (some 2) ≠
      Except.error ApiError.ValidationError := by
  refine ⟨rfl, ?_, ?_⟩ <;> decide

/-- C5 as amended: missing productId, missing quantity, or quantity < 1
fails with ValidationError; an unresolvable productId fails with
NotFoundError only when no line item for it already exists — when one
exists, the handler takes the update branch and never consults the
Catalog Store. -/
theorem C5_validation_branches (db : DB) (pid : Nat) (q : ℚ) :
    addOrSetQuantity db none (some q) = .error .ValidationError ∧
    addOrSetQuantity db (some pid) none = .error .ValidationError ∧
    (q < 1 → addOrSetQuantity db (some pid) (some q) = .error .ValidationError) ∧
    (1 ≤ q → db.cartItems.find? (fun it => it.product == pid) = none →
      findProduct db pid = none →
      addOrSetQuantity db (some pid) (some q) = .error .NotFoundError) ∧
    (1 ≤ q → ∀ ci, db.cartItems.find? (fun it => it.product == pid) = some ci →
      ∃ db2 item, addOrSetQuantity db (some pid) (some q) = .ok (db2, item)) := by
  refine ⟨rfl, rfl, ?_, ?_, ?_⟩
  · intro h
    simp only [addOrSetQuantity, if_pos h]
  · intro hq h1 h2
    simp only [addOrSetQuantity, if_neg (not_lt.mpr hq), h1, h2]
  · intro hq ci hci
    exact ⟨_, _, by simp only [addOrSetQuantity, if_neg (not_lt.mpr hq), hci]; rfl⟩

/-- Witness for the amended C5: quantity 0 is rejected, and an unresolvable
product with no existing line item is a NotFoundError, while an existing
line item for an unresolvable product is accepted. -/
theorem C5_validation_branches_witness :
    addOrSetQuantity (DB.mk [] [] 0) (some 1) (some 0) = .error .ValidationError ∧
    addOrSetQuantity (DB.mk [] [] 0) (some 1) (some 2) = .error .NotFoundError ∧
    ∃ db2 item,
      addOrSetQuantity (DB.mk [] [⟨0, 99, 1⟩] 1) (some 99) (some 2) = .ok (db2, item) :=
  ⟨(C5_validation_branches (DB.mk [] [] 0) 1 0).2.2.1 (by norm_num),
   (C5_validation_branches (DB.mk [] [] 0) 1 2).2.2.2.1 (by norm_num) rfl rfl,
   (C5_validation_branches (DB.mk [] [⟨0, 99, 1⟩] 1) 99 2).2.2.2.2 (by norm_num)
     ⟨0, 99, 1⟩ rfl⟩

/-- C3: checkout on a non-empty cart returns a receipt whose total is the
total GET /api/cart would have returned just before, and a GET /api/cart
issued afterwards returns an empty cart with total 0. -/
theorem C3_checkout_matches_getCart (db : DB) (_hne : db.cartItems ≠ []) :
    (checkout db).2.total = (getCart db).total ∧
    (getCart (checkout db).1).cartItems = [] ∧
    (getCart (checkout db).1).total = 0 := by
  refine ⟨rfl, rfl, ?_⟩
  show round2 0 = 0
  simp [round2]

/-- Witness for C3 on a one-item cart (price 25, quantity 2). -/
theorem C3_checkout_matches_getCart_witness :
    (checkout (DB.mk [⟨1, "A", 25, "img"⟩] [⟨0, 1, 2⟩] 1)).2.total =
      (getCart (DB.mk [⟨1, "A", 25, "img"⟩] [⟨0, 1, 2⟩] 1)).total ∧
    (getCart (checkout (DB.mk [⟨1, "A", 25, "img"⟩] [⟨0, 1, 2⟩] 1)).1).cartItems = [] ∧
    (getCart (checkout (DB.mk [⟨1, "A", 25, "img"⟩] [⟨0, 1, 2⟩] 1)).1).total = 0 :=
  C3_checkout_matches_getCart (DB.mk [⟨1, "A", 25, "img"⟩] [⟨0, 1, 2⟩] 1) (by decide)

/-- C8: checkout on an empty cart is not rejected: it returns a success
receipt with total 0 and no order lines. -/
theorem C8_checkout_empty_cart (db : DB) (h : db.cartItems = []) :
    (checkout db).2.total = 0 ∧ (checkout db).2.items = [] ∧
    (checkout db).2.success = true := by
  obtain ⟨ps, items, n⟩ := db
  have h2 : items = [] := h
  subst h2
  refine ⟨?_, rfl, rfl⟩
  show round2 0 = 0
  simp [round2]

/-- Witness for C8 on the empty state. -/
theorem C8_checkout_empty_cart_witness :
    (checkout (DB.mk MOCK_PRODUCTS [] 0)).2.total = 0 ∧
    (checkout (DB.mk MOCK_PRODUCTS [] 0)).2.items = [] ∧
    (checkout (DB.mk MOCK_PRODUCTS [] 0)).2.success = true :=
  C8_checkout_empty_cart (DB.mk MOCK_PRODUCTS [] 0) rfl

/-- C4 counterexample: on a cart holding one resolvable item, a failing
`CartItem.deleteMany({})` is caught by the handler's catch block, which
responds 500 — the computed receipt is not returned, contradicting the
claim that a clear failure does not turn the response into an error. -/
theorem C4_counterexample :
    checkoutHandler (DB.mk [⟨1, "A", 25, "img"⟩] [⟨0, 1, 2⟩] 1) true =
      .error .StoreError ∧
    (computeReceipt (DB.mk [⟨1, "A", 25, "img"⟩] [⟨0, 1, 2⟩] 1)).items =
      [⟨"A", 2, 25⟩] :=
  ⟨rfl, rfl⟩

/-- C4 as amended: the whole checkout body sits in one try/catch, so when
clearing the Cart Store fails the handler responds with a StoreError (500)
and the computed receipt is not returned; only when the clear succeeds is
the receipt returned (and there is indeed no rollback in either case). -/
theorem C4_clear_failure_is_error (db : DB) :
    checkoutHandler db true = .error .StoreError ∧
    checkoutHandler db false = .ok (checkout db) :=
  ⟨rfl, rfl⟩

/-- The invariant of C6: at most one cart line item per product reference. -/
def atMostOnePerProduct (db : DB) : Prop :=
  (db.cartItems.map CartItem.product).Nodup

instance (db : DB) : Decidable (atMostOnePerProduct db) := by
  unfold atMostOnePerProduct
  infer_instance

/-- C6: from a well-formed state, every operation preserves the invariant
of at most one line item per distinct product reference, and adding a
product already present updates in place (the item count is unchanged)
rather than appending a second line. -/
theorem C6_upsert_invariant (db : DB) (hwf : db.wf) :
    (∀ pid2 q2 db2 item, addOrSetQuantity db pid2 q2 = .ok (db2, item) →
      atMostOnePerProduct db2) ∧
    (∀ pid q db2 item, addOrSetQuantity db (some pid) (some q) = .ok (db2, item) →
      (∃ ci ∈ db.cartItems, ci.product = pid) →
      db2.cartItems.length = db.cartItems.length) ∧
    (∀ id, atMostOnePerProduct (removeItem db id).2) ∧
    atMostOnePerProduct (checkout db).1 := by
  obtain ⟨hpid, hcid, hcprod, hbound⟩ := hwf
  refine ⟨?_, ?_, ?_, ?_⟩
  · rintro (_ | pid) (_ | q) db2 item h
    · exact absurd h (by simp [addOrSetQuantity])
    · exact absurd h (by simp [addOrSetQuantity])
    · exact absurd h (by simp [addOrSetQuantity])
    · by_cases hq : q < 1
      · exact absurd h (by simp [addOrSetQuantity, if_pos hq])
      · cases hfind : db.cartItems.find? (fun it => it.product == pid) with
        | some ci =>
          obtain ⟨hmem, hciprod⟩ := find?_cart_spec hfind
          simp only [addOrSetQuantity, if_neg hq, hfind, Except.ok.injEq,
            Prod.mk.injEq] at h
          obtain ⟨hdb2, -⟩ := h
          subst hdb2
          show ((db.cartItems.map
            (fun it => if it.id == ci.id then { ci with quantity := q } else it)).map
              CartItem.product).Nodup
          rw [List.map_map]
          have hsame : db.cartItems.map
              (CartItem.product ∘ fun it =>
                if it.id == ci.id then { ci with quantity := q } else it) =
              db.cartItems.map CartItem.product := by
            apply List.map_congr_left
            intro x hx
            by_cases hid : x.id == ci.id
            · have hx_eq : x = ci :=
                List.inj_on_of_nodup_map hcid hx hmem (by simpa using hid)
              subst hx_eq
              simp [hid]
            · simp only [Function.comp_apply]
              rw [if_neg hid]
          rw [hsame]
          exact hcprod
        | none =>
          cases hp : findProduct db pid with
          | none => exact absurd h (by simp [addOrSetQuantity, if_neg hq, hfind, hp])
          | some p =>
            simp only [addOrSetQuantity, if_neg hq, hfind, hp, Except.ok.injEq,
              Prod.mk.injEq] at h
            obtain ⟨hdb2, -⟩ := h
            subst hdb2
            show ((db.cartItems ++
              [({ id := db.nextId, product := pid, quantity := q } : CartItem)]).map
                CartItem.product).Nodup
            rw [List.map_append]
            refine List.Nodup.append hcprod (by simp) ?_
            intro a ha hb
            simp only [List.map_cons, List.map_nil, List.mem_singleton] at hb
            subst hb
            rcases List.mem_map.mp ha with ⟨x, hx, hxa⟩
            have hno := List.find?_eq_none.mp hfind x hx
            simp [hxa] at hno
  · intro pid q db2 item h hex
    obtain ⟨ci, hci, hprod⟩ := hex
    cases hfind : db.cartItems.find? (fun it => it.product == pid) with
    | none =>
      have hno := List.find?_eq_none.mp hfind ci hci
      simp [hprod] at hno
    | some ci2 =>
      by_cases hq : q < 1
      · exact absurd h (by simp [addOrSetQuantity, if_pos hq])
      · simp only [addOrSetQuantity, if_neg hq, hfind, Except.ok.injEq,
          Prod.mk.injEq] at h
        obtain ⟨hdb2, -⟩ := h
        subst hdb2
        simp
  · intro id
    cases hfind : db.cartItems.find? (fun it => it.id == id) with
    | none =>
      simp only [removeItem, hfind]
      exact hcprod
    | some ci =>
      simp only [removeItem, hfind]
      exact List.Nodup.sublist
        (List.Sublist.map CartItem.product (List.eraseP_sublist _)) hcprod
  · exact List.nodup_nil

/-- Witness for C6: the invariant holds after checking out a concrete
well-formed two-item state. -/
theorem C6_upsert_invariant_witness :
    atMostOnePerProduct
      (checkout (DB.mk [⟨1, "A", 25, "img"⟩] [⟨0, 1, 2⟩, ⟨3, 2, 1⟩] 4)).1 ∧
    atMostOnePerProduct
      (removeItem (DB.mk [⟨1, "A", 25, "img"⟩] [⟨0, 1, 2⟩, ⟨3, 2, 1⟩] 4) 0).2 :=
  ⟨(C6_upsert_invariant (DB.mk [⟨1, "A", 25, "img"⟩] [⟨0, 1, 2⟩, ⟨3, 2, 1⟩] 4)
      (by decide)).2.2.2,
   (C6_upsert_invariant (DB.mk [⟨1, "A", 25, "img"⟩] [⟨0, 1, 2⟩, ⟨3, 2, 1⟩] 4)
      (by decide)).2.2.1 0⟩

lemma eraseP_id_spec (id : Nat) :
    ∀ l : List CartItem, (l.map CartItem.id).Nodup →
      ∀ x ∈ l.eraseP (fun it => it.id == id), x.id ≠ id := by
  intro l
  induction l with
  | nil =>
    intro _ x hx
    simp at hx
  | cons a l ih =>
    intro hnd x hx
    rw [List.eraseP_cons] at hx
    simp only [List.map_cons, List.nodup_cons, List.mem_map] at hnd
    by_cases ha : (a.id == id) = true
    · rw [ha] at hx
      simp only [cond_true] at hx
      intro hxid
      exact hnd.1 ⟨x, hx, by simp at ha; rw [hxid, ha]⟩
    · rw [Bool.not_eq_true] at ha
      rw [ha] at hx
      simp only [cond_false, List.mem_cons] at hx
      rcases hx with rfl | hx
      · intro hxid
        simp [hxid] at ha
      · exact ih hnd.2 x hx

/-- C7: in a well-formed state, removing a line item and then fetching the
cart yields a cart with no item of that id; removing an id no cart item
has fails with NotFoundError and leaves the state unchanged. -/
theorem C7_remove_then_absent (db : DB) (id : Nat) (hwf : db.wf) :
    (∀ it, (removeItem db id).1 = .ok it →
      ∀ x ∈ (getCart (removeItem db id).2).cartItems, x.id ≠ id) ∧
    ((∀ it ∈ db.cartItems, it.id ≠ id) →
      removeItem db id = (.error .NotFoundError, db)) := by
  obtain ⟨hpid, hcid, hcprod, hbound⟩ := hwf
  constructor
  · intro it hok x hx
    cases hfind : db.cartItems.find? (fun i => i.id == id) with
    | none =>
      rw [removeItem, hfind] at hok
      exact absurd hok (by simp)
    | some ci =>
      rw [removeItem, hfind] at hx
      rcases List.mem_map.mp
        (show x ∈ (db.cartItems.eraseP (fun y => y.id == id)).map
          (populate { db with
            cartItems := db.cartItems.eraseP (fun y => y.id == id) }) from hx) with
        ⟨y, hy, rfl⟩
      exact eraseP_id_spec id db.cartItems hcid y hy
  · intro hnone
    have hfind : db.cartItems.find? (fun i => i.id == id) = none :=
      List.find?_eq_none.mpr (fun x hx => by simpa using hnone x hx)
    rw [removeItem, hfind]

/-- Witness for C7: removing item 0 from a concrete cart leaves no item
with id 0, and removing the absent id 5 is a NotFoundError that leaves the
state unchanged. -/
theorem C7_remove_then_absent_witness :
    (∀ x ∈ (getCart (removeItem (DB.mk [⟨1, "A", 25, "img"⟩] [⟨0, 1, 2⟩] 1) 0).2).cartItems,
      x.id ≠ 0) ∧
    removeItem (DB.mk [⟨1, "A", 25, "img"⟩] [⟨0, 1, 2⟩] 1) 5 =
      (.error .NotFoundError, DB.mk [⟨1, "A", 25, "img"⟩] [⟨0, 1, 2⟩] 1) :=
  ⟨(C7_remove_then_absent (DB.mk [⟨1, "A", 25, "img"⟩] [⟨0, 1, 2⟩] 1) 0
      (by decide)).1 ⟨0, 1, 2⟩ rfl,
   (C7_remove_then_absent (DB.mk [⟨1, "A", 25, "img"⟩] [⟨0, 1, 2⟩] 1) 5
      (by decide)).2 (by decide)⟩

/-- C9: seeding is idempotent: it fills an empty catalog with the mock
products, is a no-op on a non-empty catalog, and running it twice leaves
the same state as running it once. -/
theorem C9_seed_idempotent (ps : List Product) :
    (ps = [] → seedDatabase ps = MOCK_PRODUCTS) ∧
    (ps ≠ [] → seedDatabase ps = ps) ∧
    seedDatabase (seedDatabase ps) = seedDatabase ps := by
  refine ⟨?_, ?_, ?_⟩
  · intro h
    subst h
    rfl
  · intro h
    cases ps with
    | nil => exact absurd rfl h
    | cons a l => simp [seedDatabase]
  · cases ps with
    | nil => rfl
    | cons a l => simp [seedDatabase]

/-- Witness for C9: seeding the empty catalog, then seeding again. -/
theorem C9_seed_idempotent_witness :
    seedDatabase [] = MOCK_PRODUCTS ∧
    seedDatabase (seedDatabase []) = seedDatabase [] ∧
    seedDatabase MOCK_PRODUCTS = MOCK_PRODUCTS :=
  ⟨(C9_seed_idempotent []).1 rfl, (C9_seed_idempotent []).2.2,
   (C9_seed_idempotent MOCK_PRODUCTS).2.1 (by decide)⟩

end VibeCommerce
